import Mathlib

/-!
Verification development for the mindhive-fastapi outlet service.

The definitions below are a shallow embedding of the Python source:

* `models.py`            — the data model (`Outlet`, `OutletProximity`, `OutletVector`);
* `scripts/process_proximity.py` — `haversine` and `compute_and_store_catchments`;
* `scripts/upload_vector.py`     — `generate_outlet_summary`, `generate_embedding`,
  `upload_outlet_vectors`;
* `utils/embedding.py`   — `get_query_embedding`;
* `api/chat.py`          — `get_relevant_outlets_for_chat` and its ranked SQL query;
* `api/outlet.py`        — `get_outlets`.

Numeric vector components and similarity scores are modelled as rationals,
geographic angles as reals.  Database tables are lists of records; the
external embedding providers are parameters (`Option`/`Except` valued) so that
both their success and failure behaviour can be stated.
-/

namespace Mindhive

/-- An `outlets` row (models.py `Outlet`).  `services` is the JSON list of
service tags; SQL `NULL` behaves exactly like the empty list in every code
path modelled here (Python truthiness and `or []`), so it is a plain list. -/
structure Outlet where
  id : Nat
  name : String
  address : String
  services : List String
  latitude : Option ℚ
  longitude : Option ℚ
  phone : Option String
  fax : Option String
deriving DecidableEq, Repr

/-- An `outlet_proximities` row (models.py `OutletProximity`). -/
structure OutletProximity where
  outlet_id : Nat
  intersecting_outlet_id : Nat
  distance_km : ℚ
deriving DecidableEq, Repr

/-- An `outlet_vectors` row (models.py `OutletVector`). -/
structure OutletVector where
  outlet_id : Nat
  summary : String
  embedding : List ℚ
deriving DecidableEq, Repr

/-- The database state visible to the components modelled here: the outlet
table and the vector table. -/
structure DBState where
  outlets : List Outlet
  vectors : List OutletVector
deriving DecidableEq, Repr

/-! ### scripts/process_proximity.py -/

/-- `CATCHMENT_RADIUS_KM = 5.0`. -/
def CATCHMENT_RADIUS_KM : ℚ := 5

/-- `math.radians`: degrees to radians. -/
noncomputable def radians (x : ℝ) : ℝ := x * Real.pi / 180

/-- `haversine(lat1, lon1, lat2, lon2)`: great-circle distance with Earth
radius 6371 km, exactly as written in `process_proximity.py` (real-valued
idealisation of the floating-point source). -/
noncomputable def haversine (lat1 lon1 lat2 lon2 : ℝ) : ℝ :=
  let R : ℝ := 6371
  let dlat := radians (lat2 - lat1)
  let dlon := radians (lon2 - lon1)
  let a := Real.sin (dlat / 2) ^ 2 +
    Real.cos (radians lat1) * Real.cos (radians lat2) * Real.sin (dlon / 2) ^ 2
  let c := 2 * Real.arcsin (Real.sqrt a)
  R * c

/-- The `db.query(OutletProximity).filter_by(outlet_id=.., intersecting_outlet_id=..)`
existence check performed before each insert. -/
def hasEdge (es : List OutletProximity) (i j : Nat) : Bool :=
  es.any (fun e => e.outlet_id == i && e.intersecting_outlet_id == j)

/-- The body of the inner loop of `compute_and_store_catchments`: skip when
`source.id == target.id`, compute the distance, and insert the edge when it is
within the radius and not already present.  The numeric distance computation
(floating-point `haversine` in the source) is the parameter `d`. -/
def processPair (d : Outlet → Outlet → ℚ) (es : List OutletProximity)
    (source target : Outlet) : List OutletProximity :=
  if source.id = target.id then es
  else if d source target ≤ CATCHMENT_RADIUS_KM then
    if hasEdge es source.id target.id then es
    else es ++ [⟨source.id, target.id, d source target⟩]
  else es

/-- The inner `for target in outlets` loop, for a fixed `source`. -/
def innerLoop (d : Outlet → Outlet → ℚ) (targets : List Outlet) (source : Outlet)
    (es : List OutletProximity) : List OutletProximity :=
  targets.foldl (fun es2 target => processPair d es2 source target) es

/-- The outer `for source in outlets` loop over an explicit source list. -/
def outerLoop (d : Outlet → Outlet → ℚ) (targets sources : List Outlet)
    (es : List OutletProximity) : List OutletProximity :=
  sources.foldl (fun es1 source => innerLoop d targets source es1) es

/-- `compute_and_store_catchments`: the double loop over all outlets,
started from the current edge store `es`. -/
def compute_and_store_catchments (d : Outlet → Outlet → ℚ) (outlets : List Outlet)
    (es : List OutletProximity) : List OutletProximity :=
  outerLoop d outlets outlets es

/-! ### scripts/upload_vector.py -/

/-- The `explanations` dict literal of `generate_outlet_summary`, in source
order. -/
def explanations : List (String × String) :=
  [("24 Hours", "It operates 24 hours, ideal for late-night meals."),
   ("Drive-Thru", "Drive-Thru is available for quick service from your vehicle."),
   ("McCafe", "You can enjoy coffee and desserts from McCafe."),
   ("WiFi", "Free WiFi is provided for customers."),
   ("Birthday Party", "Birthday party packages are available for celebrations."),
   ("Electric Vehicle", "Electric vehicle charging stations are available."),
   ("Surau", "There is a Surau (prayer room) on-site."),
   ("Digital Order Kiosk", "It features a digital kiosk for self-service ordering."),
   ("Cashless Facility", "Cashless payments are accepted."),
   ("Dessert Center", "You can get ice cream and desserts at the Dessert Center."),
   ("Breakfast", "Breakfast items are available during morning hours."),
   ("McDelivery", "Delivery service is available via McDelivery.")]

/-- Python `service in explanations` / `explanations[service]` on the dict. -/
def lookupExplanation (service : String) : Option String :=
  (explanations.find? (fun p => p.1 == service)).map Prod.snd

/-- `generate_outlet_summary(outlet)`: base sentence, optional services
sentence, then one explanation sentence per service found in the table, in
the services' stored order. -/
def generate_outlet_summary (o : Outlet) : String :=
  let services := o.services
  let base := o.name ++ " is a McDonald's restaurant located at " ++ o.address ++ "."
  let withServices :=
    if services.isEmpty then base
    else base ++ " It offers the following services: " ++
      String.intercalate ", " services ++ "."
  services.foldl (fun acc service =>
    match lookupExplanation service with
    | some e => acc ++ " " ++ e
    | none => acc) withServices

/-- `generate_embedding(text)`: calls the ollama `embeddings` provider
(parameter `embed`) and returns its result; it has no exception handler, so a
provider error propagates to the caller unchanged. -/
def generate_embedding (embed : String → Except String (List ℚ)) (text : String) :
    Except String (List ℚ) :=
  embed text

/-- `db.query(OutletVector).filter_by(outlet_id=..).first()` as a Boolean
existence check. -/
def vectorExistsFor (vs : List OutletVector) (oid : Nat) : Bool :=
  vs.any (fun v => v.outlet_id == oid)

/-- One iteration of the `for outlet in outlets` loop of
`upload_outlet_vectors`: skip when a vector row for the outlet id exists,
skip (log only) when the embedding call fails, otherwise insert the new row. -/
def processOutletVector (embed : String → Except String (List ℚ))
    (vs : List OutletVector) (o : Outlet) : List OutletVector :=
  if vectorExistsFor vs o.id then vs
  else
    let summary := generate_outlet_summary o
    match generate_embedding embed summary with
    | .error _ => vs
    | .ok emb => vs ++ [⟨o.id, summary, emb⟩]

/-- `upload_outlet_vectors()`: the run begins with
`db.query(OutletVector).delete()` — every existing vector row is removed —
and then loops over all outlets with the per-outlet existence check. -/
def upload_outlet_vectors (embed : String → Except String (List ℚ))
    (db : DBState) : DBState :=
  let cleared : List OutletVector := []
  { db with vectors := db.outlets.foldl (processOutletVector embed) cleared }

/-! ### utils/embedding.py -/

/-- `get_query_embedding(query)`: the Gemini call is the parameter
`provider` (`some v` on success, `none` when the provider raises).  The
`except` branch logs the error and returns the empty list `[]`. -/
def get_query_embedding (provider : Option (List ℚ)) : List ℚ :=
  match provider with
  | some v => v
  | none => []

/-! ### api/chat.py -/

/-- The one-line record built for each row of the ranked SQL result:
`f"{row.name}, Address: {row.address}"`, with `", Services: ..."` appended
only when `row.services` is truthy (non-empty). -/
def formatRankedRecord (o : Outlet) : String :=
  let base := o.name ++ ", Address: " ++ o.address
  if o.services.isEmpty then base
  else base ++ ", Services: " ++ String.intercalate ", " o.services

/-- The record built in the exception fallback:
`f"{o.name}, Address: {o.address}, Services: {', '.join(o.services or [])}"` —
the `", Services: "` segment is always present. -/
def formatFallbackRecord (o : Outlet) : String :=
  o.name ++ ", Address: " ++ o.address ++ ", Services: " ++
    String.intercalate ", " o.services

/-- The `JOIN outlets o ... ON o.id = ov.outlet_id` of the ranked query:
all (outlet, vector) pairs with matching id. -/
def joinRows (db : DBState) : List (Outlet × OutletVector) :=
  db.outlets.flatMap (fun o =>
    (db.vectors.filter (fun ov => ov.outlet_id == o.id)).map (fun ov => (o, ov)))

/-- `1 - (ov.embedding <=> query_embedding)`: the similarity score, one minus
the cosine distance (`cosDist` is the pgvector `<=>` operator). -/
def similarity (cosDist : List ℚ → List ℚ → ℚ) (qemb : List ℚ)
    (p : Outlet × OutletVector) : ℚ :=
  1 - cosDist p.2.embedding qemb

/-- The ranked SQL query of `get_relevant_outlets_for_chat`.  Per spec §4.4
the ranked step itself fails on malformed vector data: the empty query vector
produced after a provider failure cannot be cast to `vector`, and a stored
vector of a different dimension makes `<=>` raise; both are the `.error`
branch.  Otherwise the result keeps the rows with similarity `≥ 0.3`
(`WHERE`), ordered by cosine distance ascending (`ORDER BY`, stable). -/
def rankedSearch (cosDist : List ℚ → List ℚ → ℚ) (qemb : List ℚ) (db : DBState) :
    Except Unit (List (Outlet × OutletVector)) :=
  if qemb.isEmpty then .error ()
  else if db.vectors.any (fun ov => ov.embedding.length != qemb.length) then .error ()
  else .ok (List.insertionSort
    (fun p q => cosDist p.2.embedding qemb ≤ cosDist q.2.embedding qemb)
    ((joinRows db).filter (fun p => (3 : ℚ)/10 ≤ similarity cosDist qemb p)))

/-- `get_relevant_outlets_for_chat(query, db)`: embed the query, run the
ranked query, join the records with newlines (or return the sentinel when no
row qualified); on any exception roll back and return the full unranked
listing of the outlet table. -/
def get_relevant_outlets_for_chat (cosDist : List ℚ → List ℚ → ℚ)
    (provider : Option (List ℚ)) (db : DBState) : String :=
  let query_embedding := get_query_embedding provider
  match rankedSearch cosDist query_embedding db with
  | .ok rows =>
      let relevant_outlets := rows.map (fun p => formatRankedRecord p.1)
      if relevant_outlets.isEmpty then "No particularly relevant outlets found."
      else String.intercalate "\n" relevant_outlets
  | .error _ => String.intercalate "\n" (db.outlets.map formatFallbackRecord)

/-! ### api/outlet.py -/

/-- `get_outlets(lat, lon, db)`: the endpoint accepts optional `lat` and
`lon` query parameters and returns
`db.query(Outlet).filter(Outlet.latitude != None, Outlet.longitude != None).all()`. -/
def get_outlets (lat lon : Option ℚ) (db : DBState) : List Outlet :=
  db.outlets.filter (fun o => o.latitude.isSome && o.longitude.isSome)

/-- Spec §4.5 (c), stated in the spec's words: for each service present in
the explanation table, one additional fixed sentence (with its separating
space), in the services' stored order.  Used to compare the source's
`generate_outlet_summary` against the spec's description. -/
def explanationSentences : List String → String
  | [] => ""
  | s :: ss =>
    (match lookupExplanation s with
     | some e => " " ++ e
     | none => "") ++ explanationSentences ss

/-! ### Concrete fixtures used to instantiate the theorems below -/

/-- A symmetric distance function used to exercise the builder: 3 km between
outlets whose ids sum to 3, 7 km otherwise. -/
def dW : Outlet → Outlet → ℚ := fun a b => if a.id + b.id = 3 then 3 else 7

/-- Fixture outlet with id 1. -/
def oW1 : Outlet := ⟨1, "A", "a", [], none, none, none, none⟩

/-- Fixture outlet with id 2. -/
def oW2 : Outlet := ⟨2, "B", "b", [], none, none, none, none⟩

/-- Fixture outlet with id 3. -/
def oW3 : Outlet := ⟨3, "C", "c", [], none, none, none, none⟩

/-- Fixture outlet equal to `oW1` except for its phone field. -/
def oW1' : Outlet := ⟨1, "A", "a", [], none, none, some "p", none⟩

/-- Fixture cosine-distance function: the head of the stored embedding
(default 1), ignoring the query vector. -/
def cdW : List ℚ → List ℚ → ℚ := fun e _ => e.headD 1

/-- Fixture vector whose similarity under `cdW` is 1/10 (below the 0.3
cutoff). -/
def vLow : OutletVector := ⟨1, "s-low", [9/10]⟩

/-- Fixture store in which the only stored outlet scores below 0.3. -/
def dbLow : DBState := ⟨[oW1], [vLow]⟩

/-- Fixture vector for outlet 1 with similarity 1 under `cdW`. -/
def vW1 : OutletVector := ⟨1, "s1", [0]⟩

/-- Fixture vector for outlet 2 with similarity 1/2 under `cdW`. -/
def vW2 : OutletVector := ⟨2, "s2", [1/2]⟩

/-- Fixture vector for outlet 3 with similarity 1/10 under `cdW`. -/
def vW3 : OutletVector := ⟨3, "s3", [9/10]⟩

/-- Fixture store in which exactly two stored vectors clear the 0.3
cutoff, with distinct scores. -/
def dbRanked : DBState := ⟨[oW1, oW2, oW3], [vW1, vW2, vW3]⟩

/-- The ranked rows expected from `dbRanked`: outlet 1 (similarity 1)
before outlet 2 (similarity 1/2). -/
def rowsW : List (Outlet × OutletVector) := [(oW1, vW1), (oW2, vW2)]

/-! ### Lemmas about the proximity graph builder -/

lemma innerLoop_nil (d : Outlet → Outlet → ℚ) (s : Outlet) (es : List OutletProximity) :
    innerLoop d [] s es = es := rfl

lemma innerLoop_cons (d : Outlet → Outlet → ℚ) (t : Outlet) (ts : List Outlet)
    (s : Outlet) (es : List OutletProximity) :
    innerLoop d (t :: ts) s es = innerLoop d ts s (processPair d es s t) := rfl

lemma outerLoop_nil (d : Outlet → Outlet → ℚ) (targets : List Outlet)
    (es : List OutletProximity) : outerLoop d targets [] es = es := rfl

lemma outerLoop_cons (d : Outlet → Outlet → ℚ) (targets : List Outlet)
    (s : Outlet) (ss : List Outlet) (es : List OutletProximity) :
    outerLoop d targets (s :: ss) es = outerLoop d targets ss (innerLoop d targets s es) := rfl

lemma mem_processPair {d : Outlet → Outlet → ℚ} {es : List OutletProximity}
    {e : OutletProximity} (s t : Outlet) (h : e ∈ es) : e ∈ processPair d es s t := by
  unfold processPair
  split_ifs with h1 h2 h3
  · exact h
  · exact h
  · exact List.mem_append_left _ h
  · exact h

lemma mem_innerLoop {d : Outlet → Outlet → ℚ} {es : List OutletProximity}
    {e : OutletProximity} (ts : List Outlet) (s : Outlet) (h : e ∈ es) :
    e ∈ innerLoop d ts s es := by
  induction ts generalizing es with
  | nil => exact h
  | cons t ts ih => exact ih (mem_processPair s t h)

lemma mem_outerLoop {d : Outlet → Outlet → ℚ} {es : List OutletProximity}
    {e : OutletProximity} (targets ss : List Outlet) (h : e ∈ es) :
    e ∈ outerLoop d targets ss es := by
  induction ss generalizing es with
  | nil => exact h
  | cons s ss ih => exact ih (mem_innerLoop targets s h)

lemma hasEdge_iff {es : List OutletProximity} {i j : Nat} :
    hasEdge es i j = true ↔ ∃ e ∈ es, e.outlet_id = i ∧ e.intersecting_outlet_id = j := by
  simp [hasEdge, List.any_eq_true]

lemma hasEdge_of_subset {es es' : List OutletProximity} {i j : Nat}
    (hsub : ∀ e ∈ es, e ∈ es') (h : hasEdge es i j = true) : hasEdge es' i j = true := by
  rcases hasEdge_iff.mp h with ⟨e, he, hij⟩
  exact hasEdge_iff.mpr ⟨e, hsub e he, hij⟩

lemma processPair_sound {d : Outlet → Outlet → ℚ} {es : List OutletProximity}
    {s t : Outlet} {e : OutletProximity} (h : e ∈ processPair d es s t) :
    e ∈ es ∨ (e = ⟨s.id, t.id, d s t⟩ ∧ s.id ≠ t.id ∧ d s t ≤ CATCHMENT_RADIUS_KM) := by
  unfold processPair at h
  split_ifs at h with h1 h2 h3
  · exact .inl h
  · exact .inl h
  · rcases List.mem_append.mp h with h' | h'
    · exact .inl h'
    · exact .inr ⟨by simpa using h', h1, h2⟩
  · exact .inl h

lemma innerLoop_sound {d : Outlet → Outlet → ℚ} {s : Outlet} {ts : List Outlet}
    {es : List OutletProximity} {e : OutletProximity} (h : e ∈ innerLoop d ts s es) :
    e ∈ es ∨ ∃ t ∈ ts, e = ⟨s.id, t.id, d s t⟩ ∧ s.id ≠ t.id ∧
      d s t ≤ CATCHMENT_RADIUS_KM := by
  induction ts generalizing es with
  | nil => exact .inl h
  | cons t ts ih =>
    rw [innerLoop_cons] at h
    rcases ih h with h' | ⟨t', ht', he⟩
    · rcases processPair_sound h' with h'' | h''
      · exact .inl h''
      · exact .inr ⟨t, List.mem_cons_self t ts, h''⟩
    · exact .inr ⟨t', List.mem_cons_of_mem t ht', he⟩

lemma outerLoop_sound {d : Outlet → Outlet → ℚ} {targets ss : List Outlet}
    {es : List OutletProximity} {e : OutletProximity} (h : e ∈ outerLoop d targets ss es) :
    e ∈ es ∨ ∃ s ∈ ss, ∃ t ∈ targets, e = ⟨s.id, t.id, d s t⟩ ∧ s.id ≠ t.id ∧
      d s t ≤ CATCHMENT_RADIUS_KM := by
  induction ss generalizing es with
  | nil => exact .inl h
  | cons s ss ih =>
    rw [outerLoop_cons] at h
    rcases ih h with h' | ⟨s', hs', he⟩
    · rcases innerLoop_sound h' with h'' | ⟨t, ht, he⟩
      · exact .inl h''
      · exact .inr ⟨s, List.mem_cons_self s ss, t, ht, he⟩
    · exact .inr ⟨s', List.mem_cons_of_mem s hs', he⟩

lemma processPair_ensures {d : Outlet → Outlet → ℚ} {es : List OutletProximity}
    {s t : Outlet} (hne : s.id ≠ t.id) (hd : d s t ≤ CATCHMENT_RADIUS_KM) :
    hasEdge (processPair d es s t) s.id t.id = true := by
  unfold processPair
  rw [if_neg hne, if_pos hd]
  by_cases h3 : hasEdge es s.id t.id = true
  · rw [if_pos h3]; exact h3
  · rw [if_neg h3]
    exact hasEdge_iff.mpr ⟨⟨s.id, t.id, d s t⟩, List.mem_append_right _ (by simp), rfl, rfl⟩

lemma innerLoop_complete {d : Outlet → Outlet → ℚ} {s t : Outlet} {ts : List Outlet}
    {es : List OutletProximity} (ht : t ∈ ts) (hne : s.id ≠ t.id)
    (hd : d s t ≤ CATCHMENT_RADIUS_KM) :
    hasEdge (innerLoop d ts s es) s.id t.id = true := by
  induction ts generalizing es with
  | nil => cases ht
  | cons t' ts ih =>
    rw [innerLoop_cons]
    rcases List.mem_cons.mp ht with rfl | ht'
    · exact hasEdge_of_subset (fun e he => mem_innerLoop ts s he) (processPair_ensures hne hd)
    · exact ih ht'

lemma outerLoop_complete {d : Outlet → Outlet → ℚ} {s t : Outlet} {targets ss : List Outlet}
    {es : List OutletProximity} (hs : s ∈ ss) (ht : t ∈ targets) (hne : s.id ≠ t.id)
    (hd : d s t ≤ CATCHMENT_RADIUS_KM) :
    hasEdge (outerLoop d targets ss es) s.id t.id = true := by
  induction ss generalizing es with
  | nil => cases hs
  | cons s' ss ih =>
    rw [outerLoop_cons]
    rcases List.mem_cons.mp hs with rfl | hs'
    · exact hasEdge_of_subset (fun e he => mem_outerLoop targets ss he)
        (innerLoop_complete ht hne hd)
    · exact ih hs'

lemma processPair_id {d : Outlet → Outlet → ℚ} {es : List OutletProximity} {s t : Outlet}
    (h : s.id ≠ t.id → d s t ≤ CATCHMENT_RADIUS_KM → hasEdge es s.id t.id = true) :
    processPair d es s t = es := by
  unfold processPair
  split_ifs with h1 h2 h3
  · rfl
  · rfl
  · exact absurd (h h1 h2) h3
  · rfl

lemma innerLoop_id {d : Outlet → Outlet → ℚ} {s : Outlet} {ts : List Outlet}
    {es : List OutletProximity}
    (h : ∀ t ∈ ts, s.id ≠ t.id → d s t ≤ CATCHMENT_RADIUS_KM → hasEdge es s.id t.id = true) :
    innerLoop d ts s es = es := by
  induction ts with
  | nil => rfl
  | cons t ts ih =>
    rw [innerLoop_cons, processPair_id (h t (List.mem_cons_self t ts))]
    exact ih (fun t' ht' => h t' (List.mem_cons_of_mem t ht'))

lemma outerLoop_id {d : Outlet → Outlet → ℚ} {targets ss : List Outlet}
    {es : List OutletProximity}
    (h : ∀ s ∈ ss, ∀ t ∈ targets, s.id ≠ t.id → d s t ≤ CATCHMENT_RADIUS_KM →
      hasEdge es s.id t.id = true) :
    outerLoop d targets ss es = es := by
  induction ss with
  | nil => rfl
  | cons s ss ih =>
    rw [outerLoop_cons, innerLoop_id (h s (List.mem_cons_self s ss))]
    exact ih (fun s' hs' => h s' (List.mem_cons_of_mem s hs'))

/-! ### Claim theorems: proximity graph builder -/

/-- C2: after one run of `compute_and_store_catchments` over an empty edge
store, outlets with pairwise distinct ids and a symmetric distance function,
every pair of distinct outlets within 5.0 km is stored as both ordered edges,
each carrying the computed distance; a pair farther than 5.0 km produces no
edge, and no self-edge is ever stored. -/
theorem compute_catchments_edge_set (d : Outlet → Outlet → ℚ)
    (hsym : ∀ a b, d a b = d b a) (outlets : List Outlet)
    (hnodup : (outlets.map Outlet.id).Nodup) (a b : Outlet)
    (ha : a ∈ outlets) (hb : b ∈ outlets) :
    (a.id ≠ b.id ∧ d a b ≤ CATCHMENT_RADIUS_KM →
      (⟨a.id, b.id, d a b⟩ : OutletProximity) ∈ compute_and_store_catchments d outlets [] ∧
      (⟨b.id, a.id, d a b⟩ : OutletProximity) ∈ compute_and_store_catchments d outlets []) ∧
    (¬ d a b ≤ CATCHMENT_RADIUS_KM →
      ∀ e ∈ compute_and_store_catchments d outlets [],
        ¬(e.outlet_id = a.id ∧ e.intersecting_outlet_id = b.id)) ∧
    (∀ e ∈ compute_and_store_catchments d outlets [],
      e.outlet_id ≠ e.intersecting_outlet_id) := by
  have hmem : ∀ s t : Outlet, s ∈ outlets → t ∈ outlets → s.id ≠ t.id →
      d s t ≤ CATCHMENT_RADIUS_KM →
      (⟨s.id, t.id, d s t⟩ : OutletProximity) ∈ compute_and_store_catchments d outlets [] := by
    intro s t hs ht hne hd
    have hhe : hasEdge (compute_and_store_catchments d outlets []) s.id t.id = true :=
      outerLoop_complete hs ht hne hd
    rcases hasEdge_iff.mp hhe with ⟨e, he, hi, hj⟩
    rcases outerLoop_sound he with h0 | ⟨s', hs', t', ht', he', hne', hd'⟩
    · cases h0
    · have hsid : s'.id = s.id := by rw [he'] at hi; exact hi
      have htid : t'.id = t.id := by rw [he'] at hj; exact hj
      have hs2 : s' = s := List.inj_on_of_nodup_map hnodup hs' hs hsid
      have ht2 : t' = t := List.inj_on_of_nodup_map hnodup ht' ht htid
      rw [hs2, ht2] at he'
      rw [← he']
      exact he
  refine ⟨fun hab => ?_, fun hgt e he hij => ?_, fun e he => ?_⟩
  · refine ⟨hmem a b ha hb hab.1 hab.2, ?_⟩
    have hba : (⟨b.id, a.id, d b a⟩ : OutletProximity) ∈
        compute_and_store_catchments d outlets [] :=
      hmem b a hb ha (Ne.symm hab.1) (by rw [hsym b a]; exact hab.2)
    rwa [hsym b a] at hba
  · rcases outerLoop_sound he with h0 | ⟨s', hs', t', ht', he', hne', hd'⟩
    · cases h0
    · have hsid : s'.id = a.id := by rw [he'] at hij; exact hij.1
      have htid : t'.id = b.id := by rw [he'] at hij; exact hij.2
      have hs2 : s' = a := List.inj_on_of_nodup_map hnodup hs' ha hsid
      have ht2 : t' = b := List.inj_on_of_nodup_map hnodup ht' hb htid
      rw [hs2, ht2] at hd'
      exact hgt hd'
  · rcases outerLoop_sound he with h0 | ⟨s', hs', t', ht', he', hne', hd'⟩
    · cases h0
    · rw [he']
      exact hne'

/-- Witness for C2: in the three-outlet fixture, the qualifying pair (1, 2)
is stored in both directions with its distance, discharging every hypothesis
of `compute_catchments_edge_set` on concrete data. -/
theorem compute_catchments_edge_set_witness :
    (⟨1, 2, dW oW1 oW2⟩ : OutletProximity) ∈
      compute_and_store_catchments dW [oW1, oW2, oW3] [] ∧
    (⟨2, 1, dW oW1 oW2⟩ : OutletProximity) ∈
      compute_and_store_catchments dW [oW1, oW2, oW3] [] := by
  have h12 := compute_catchments_edge_set dW
    (fun a b => by unfold dW; rw [Nat.add_comm]) [oW1, oW2, oW3]
    (by decide) oW1 oW2 (by decide) (by decide)
  exact h12.1 ⟨by decide, by decide⟩

/-- C3: running the proximity builder a second time over the unchanged
outlet set returns the edge store of the first run unchanged: every
qualifying ordered pair is already present, so the existence check skips
every insertion. -/
theorem compute_catchments_idempotent (d : Outlet → Outlet → ℚ)
    (outlets : List Outlet) :
    compute_and_store_catchments d outlets (compute_and_store_catchments d outlets []) =
      compute_and_store_catchments d outlets [] := by
  unfold compute_and_store_catchments
  exact outerLoop_id (fun s hs t ht hne hd => outerLoop_complete hs ht hne hd)

/-- C9: `haversine` is symmetric in its two coordinate pairs, non-negative,
and zero on two identical coordinate pairs (real-valued model with Earth
radius 6371 km). -/
theorem haversine_symm_nonneg_zero (lat1 lon1 lat2 lon2 : ℝ) :
    haversine lat1 lon1 lat2 lon2 = haversine lat2 lon2 lat1 lon1 ∧
    0 ≤ haversine lat1 lon1 lat2 lon2 ∧
    haversine lat1 lon1 lat1 lon1 = 0 := by
  have key : ∀ la1 lo1 la2 lo2 : ℝ, haversine la1 lo1 la2 lo2 =
      6371 * (2 * Real.arcsin (Real.sqrt (Real.sin (radians (la2 - la1) / 2) ^ 2 +
        Real.cos (radians la1) * Real.cos (radians la2) *
          Real.sin (radians (lo2 - lo1) / 2) ^ 2))) :=
    fun _ _ _ _ => rfl
  have hsin : ∀ x : ℝ, Real.sin (radians (-x) / 2) ^ 2 = Real.sin (radians x / 2) ^ 2 := by
    intro x
    have h : radians (-x) / 2 = -(radians x / 2) := by unfold radians; ring
    rw [h, Real.sin_neg, neg_sq]
  refine ⟨?_, ?_, ?_⟩
  · rw [key, key]
    have h1 : Real.sin (radians (lat1 - lat2) / 2) ^ 2 =
        Real.sin (radians (lat2 - lat1) / 2) ^ 2 := by
      rw [← neg_sub lat2 lat1, hsin]
    have h2 : Real.sin (radians (lon1 - lon2) / 2) ^ 2 =
        Real.sin (radians (lon2 - lon1) / 2) ^ 2 := by
      rw [← neg_sub lon2 lon1, hsin]
    rw [h1, h2, mul_comm (Real.cos (radians lat2)) (Real.cos (radians lat1))]
  · rw [key]
    exact mul_nonneg (by norm_num) (mul_nonneg (by norm_num)
      (Real.arcsin_nonneg.mpr (Real.sqrt_nonneg _)))
  · rw [key]
    simp [radians]

/-! ### Lemmas about the semantic retrieval path -/

lemma isEmpty_map {α β : Type} (f : α → β) (l : List α) :
    (l.map f).isEmpty = l.isEmpty := by
  cases l <;> rfl

lemma summary_foldl_eq (services : List String) (acc : String) :
    services.foldl (fun a service =>
      match lookupExplanation service with
      | some e => a ++ " " ++ e
      | none => a) acc = acc ++ explanationSentences services := by
  induction services generalizing acc with
  | nil => simp [explanationSentences]
  | cons s ss ih =>
    simp only [List.foldl_cons, explanationSentences, ih]
    cases h : lookupExplanation s with
    | none => simp [h]
    | some e => simp [h, String.append_assoc]

/-! ### Claim theorems: semantic retrieval -/

/-- C1: when the query embedding succeeds (a non-empty vector of the store's
dimension) and no stored outlet reaches similarity 0.3, the retrieval
function returns exactly the sentinel text, not the full listing. -/
theorem chat_sentinel_on_empty_healthy (cosDist : List ℚ → List ℚ → ℚ)
    (qemb : List ℚ) (db : DBState) (hne : qemb ≠ [])
    (hdim : ∀ ov ∈ db.vectors, ov.embedding.length = qemb.length)
    (hlow : ∀ p ∈ joinRows db, similarity cosDist qemb p < 3/10) :
    get_relevant_outlets_for_chat cosDist (some qemb) db =
      "No particularly relevant outlets found." := by
  have hfil : ((joinRows db).filter
      (fun p => (3 : ℚ)/10 ≤ similarity cosDist qemb p)) = [] :=
    List.filter_eq_nil_iff.mpr (fun p hp => by
      simp only [decide_eq_true_eq]
      exact not_le.mpr (hlow p hp))
  have hok : rankedSearch cosDist qemb db = .ok [] := by
    unfold rankedSearch
    have c1 : ¬ (qemb.isEmpty = true) := by simp [List.isEmpty_iff, hne]
    have c2 : ¬ ((db.vectors.any fun ov => ov.embedding.length != qemb.length) = true) := by
      simp only [List.any_eq_true, not_exists]
      intro ov
      simp only [bne_iff_ne, not_and]
      intro hov
      exact fun hcon => hcon (hdim ov hov)
    rw [if_neg c1, if_neg c2, hfil]
    rfl
  simp only [get_relevant_outlets_for_chat, get_query_embedding, hok]
  rfl

/-- Witness for C1: in a store whose only outlet scores 1/10 under the
fixture distance, the retrieval function returns the sentinel. -/
theorem chat_sentinel_on_empty_healthy_witness :
    get_relevant_outlets_for_chat cdW (some [1]) dbLow =
      "No particularly relevant outlets found." := by
  apply chat_sentinel_on_empty_healthy
  · decide
  · decide
  · intro p hp
    simp only [dbLow, joinRows, oW1, vLow, List.flatMap_cons, List.flatMap_nil,
      List.filter, List.map, List.append_nil, List.mem_singleton] at hp
    subst hp
    norm_num [similarity, cdW, vLow]

/-- C4: whenever the ranked search succeeds, the produced rows are exactly
the joined (outlet, vector) pairs with similarity ≥ 0.3, they are ordered by
similarity descending, and the returned chat text is their newline-joined
one-line records (or the sentinel when none qualifies). -/
theorem rankedSearch_keeps_and_orders (cosDist : List ℚ → List ℚ → ℚ)
    (qemb : List ℚ) (db : DBState) (rows : List (Outlet × OutletVector))
    (h : rankedSearch cosDist qemb db = .ok rows) :
    (∀ p, p ∈ rows ↔ p ∈ joinRows db ∧ (3 : ℚ)/10 ≤ similarity cosDist qemb p) ∧
    List.Sorted (fun p q => similarity cosDist qemb q ≤ similarity cosDist qemb p) rows ∧
    get_relevant_outlets_for_chat cosDist (some qemb) db =
      (if rows.isEmpty then "No particularly relevant outlets found."
       else String.intercalate "\n" (rows.map fun p => formatRankedRecord p.1)) := by
  have hchat : get_relevant_outlets_for_chat cosDist (some qemb) db =
      (if rows.isEmpty then "No particularly relevant outlets found."
       else String.intercalate "\n" (rows.map fun p => formatRankedRecord p.1)) := by
    simp only [get_relevant_outlets_for_chat, get_query_embedding, h]
    rw [isEmpty_map]
  have hrows : rows = List.insertionSort
      (fun p q => cosDist p.2.embedding qemb ≤ cosDist q.2.embedding qemb)
      ((joinRows db).filter (fun p => (3 : ℚ)/10 ≤ similarity cosDist qemb p)) := by
    unfold rankedSearch at h
    split_ifs at h with h1 h2
    simp at h
    exact h.symm
  refine ⟨?_, ?_, hchat⟩
  · intro p
    rw [hrows, (List.perm_insertionSort _ _).mem_iff, List.mem_filter]
    simp
  · rw [hrows]
    letI : IsTotal (Outlet × OutletVector)
        (fun p q => cosDist p.2.embedding qemb ≤ cosDist q.2.embedding qemb) :=
      ⟨fun a b => le_total _ _⟩
    letI : IsTrans (Outlet × OutletVector)
        (fun p q => cosDist p.2.embedding qemb ≤ cosDist q.2.embedding qemb) :=
      ⟨fun a b c hab hbc => le_trans hab hbc⟩
    exact (List.sorted_insertionSort _ _).imp (fun hab => by
      simp only [similarity]
      exact sub_le_sub_left hab 1)

/-- Witness for C4: in the fixture store, exactly the two vectors with
similarity 1 and 1/2 qualify, they come back higher-similarity first, and
the chat text is their two one-line records. -/
theorem rankedSearch_keeps_and_orders_witness :
    List.Sorted (fun p q => similarity cdW [1] q ≤ similarity cdW [1] p) rowsW ∧
    get_relevant_outlets_for_chat cdW (some [1]) dbRanked =
      String.intercalate "\n" (rowsW.map fun p => formatRankedRecord p.1) ∧
    ((oW3, vW3) ∈ rowsW ↔
      ((oW3, vW3) ∈ joinRows dbRanked ∧ (3 : ℚ)/10 ≤ similarity cdW [1] (oW3, vW3))) := by
  have hok : rankedSearch cdW [1] dbRanked = .ok rowsW := by
    norm_num [rankedSearch, dbRanked, joinRows, oW1, oW2, oW3, vW1, vW2, vW3,
      similarity, cdW, rowsW, List.insertionSort, List.orderedInsert, List.filter]
  have h := rankedSearch_keeps_and_orders cdW [1] dbRanked rowsW hok
  refine ⟨h.2.1, ?_, h.1 (oW3, vW3)⟩
  rw [h.2.2]
  rfl

/-- Counterexample to C5 as stated: for an outlet without services the
fallback record is not in the ranked-record format — the fallback always
appends `", Services: "`, the ranked format omits it. -/
theorem chat_fallback_not_ranked_format_cex :
    get_relevant_outlets_for_chat cdW none ⟨[oW1], []⟩ = "A, Address: a, Services: " ∧
    String.intercalate "\n" ([oW1].map formatRankedRecord) = "A, Address: a" ∧
    ("A, Address: a, Services: " : String) ≠ "A, Address: a" := by
  refine ⟨rfl, rfl, by decide⟩

/-- C5 (amended): when the embedding provider raises, the swallowed error
yields the empty query vector, the ranked search fails on it, and the
function returns the unranked listing of every outlet in the fallback
record format (name, address, and an always-present `", Services: "`
segment), regardless of the vector store. -/
theorem chat_provider_failure_full_listing (cosDist : List ℚ → List ℚ → ℚ)
    (db : DBState) :
    get_relevant_outlets_for_chat cosDist none db =
      String.intercalate "\n" (db.outlets.map formatFallbackRecord) := rfl

/-- Counterexample to C6 as stated: when the provider fails,
`get_query_embedding` returns the empty vector rather than raising or
returning an error value. -/
theorem get_query_embedding_empty_on_failure_cex :
    get_query_embedding none = ([] : List ℚ) := rfl

/-- C6 (amended): a failure of the batch embedding call
(`generate_embedding`) propagates to the caller as an error, while the live
query embedding (`get_query_embedding`) swallows the failure and returns the
empty list. -/
theorem embedding_failure_reporting (embed : String → Except String (List ℚ))
    (t e : String) (hfail : embed t = .error e) :
    generate_embedding embed t = .error e ∧ get_query_embedding none = ([] : List ℚ) :=
  ⟨hfail, rfl⟩

/-- Witness for C6 (amended) with a concrete failing provider. -/
theorem embedding_failure_reporting_witness :
    generate_embedding (fun _ => .error "provider down") "query" = .error "provider down" ∧
    get_query_embedding none = ([] : List ℚ) :=
  embedding_failure_reporting (fun _ => .error "provider down") "query" "provider down" rfl

/-- C7 (code bug): `upload_outlet_vectors` starts with
`db.query(OutletVector).delete()`, so a rerun over an unchanged outlet set
does not leave the previously stored vector row in place: here outlet 1
already has a vector, yet after the run its old row is gone and a freshly
generated row replaces it — the "skip if vector already exists" check never
fires. -/
theorem upload_vectors_deletes_existing_row :
    vectorExistsFor (DBState.vectors ⟨[oW1], [⟨1, "old", [1]⟩]⟩) oW1.id = true ∧
    (upload_outlet_vectors (fun _ => .ok [2]) ⟨[oW1], [⟨1, "old", [1]⟩]⟩).vectors =
      [⟨1, generate_outlet_summary oW1, [2]⟩] ∧
    (⟨1, "old", [1]⟩ : OutletVector) ∉
      (upload_outlet_vectors (fun _ => .ok [2]) ⟨[oW1], [⟨1, "old", [1]⟩]⟩).vectors := by
  refine ⟨rfl, rfl, by decide⟩

/-- C8: the summary generator depends only on the outlet's name, address
and services (identical data gives identical text), and its output is the
fixed base sentence, then — only for a non-empty service list — the services
sentence in stored order, then the explanation sentences of the services
found in the explanation table, in stored order. -/
theorem generate_outlet_summary_spec (o o' : Outlet) (hn : o.name = o'.name)
    (ha : o.address = o'.address) (hs : o.services = o'.services) :
    generate_outlet_summary o = generate_outlet_summary o' ∧
    generate_outlet_summary o =
      (o.name ++ " is a McDonald's restaurant located at " ++ o.address ++ ".") ++
      (if o.services.isEmpty then ""
       else " It offers the following services: " ++
         String.intercalate ", " o.services ++ ".") ++
      explanationSentences o.services := by
  have key : ∀ x : Outlet, generate_outlet_summary x =
      (x.name ++ " is a McDonald's restaurant located at " ++ x.address ++ ".") ++
      (if x.services.isEmpty then ""
       else " It offers the following services: " ++
         String.intercalate ", " x.services ++ ".") ++
      explanationSentences x.services := by
    intro x
    unfold generate_outlet_summary
    rw [summary_foldl_eq]
    by_cases hx : x.services.isEmpty
    · rw [if_pos hx, if_pos hx]
      simp only [String.append_assoc, String.append_empty, String.empty_append]
    · rw [if_neg hx, if_neg hx]
      simp only [String.append_assoc]
  exact ⟨by rw [key o, key o', hn, ha, hs], key o⟩

/-- Witness for C8: two fixture outlets differing only in phone produce the
same summary, and the summary of the service-less outlet is exactly the base
sentence. -/
theorem generate_outlet_summary_spec_witness :
    generate_outlet_summary oW1 = generate_outlet_summary oW1' ∧
    generate_outlet_summary oW1 = "A is a McDonald's restaurant located at a." := by
  have h := generate_outlet_summary_spec oW1 oW1' rfl rfl rfl
  exact ⟨h.1, by rw [h.2]; rfl⟩

/-- C10: the outlet-listing endpoint ignores its `lat` and `lon` query
parameters — any two parameter choices give the same result over a fixed
database state — and always returns exactly the outlets whose coordinates
are both non-null. -/
theorem get_outlets_ignores_lat_lon (lat lon lat' lon' : Option ℚ) (db : DBState) :
    get_outlets lat lon db = get_outlets lat' lon' db ∧
    get_outlets lat lon db =
      db.outlets.filter (fun o => o.latitude.isSome && o.longitude.isSome) :=
  ⟨rfl, rfl⟩

end Mindhive
